import Mathlib

/-!
Verification of the request-construction and response-parsing logic of the
Gemini TTS Streamlit app (`src/app.py`), via a shallow embedding in Lean.

JSON values produced by `json.dumps` / consumed from `response.json()` are
modelled by the inductive `Json`.  The Python dict/list operations the code
uses (`in`, subscripting, `len`, iteration) are modelled faithfully,
including the exceptions they raise, as `Except String` computations;
`make_api_request` catches every exception and turns it into a user-facing
`st.error` message, which the model records in `ApiResult.error`.
-/

/-- A JSON value, as produced by `response.json()` or passed to `json=payload`. -/
inductive Json where
  | null
  | bool (b : Bool)
  | num (n : Int)
  | str (s : String)
  | arr (elems : List Json)
  | obj (fields : List (String × Json))

/-- First-match lookup of a key in the field list of a JSON object
(Python dicts from JSON have unique keys; lookup is by string key). -/
def lookupField : List (String × Json) → String → Option Json
  | [], _ => none
  | (k, v) :: rest, key => if k = key then some v else lookupField rest key

/-- One step of a path into a JSON value: an object key or an array index. -/
inductive PathStep where
  | key (k : String)
  | idx (i : Nat)

/-- Follow one path step. -/
def Json.getStep : Json → PathStep → Option Json
  | .obj fields, .key k => lookupField fields k
  | .arr elems, .idx i => elems.get? i
  | _, _ => none

/-- Follow a whole key path into a JSON value. -/
def Json.getPath (j : Json) (path : List PathStep) : Option Json :=
  path.foldl (fun acc step => acc.bind (fun v => v.getStep step)) (some j)

/-- Request URL built by both `get_gemini_tts_single` and
`get_gemini_tts_multi` (app.py lines 86 and 108). -/
def request_url (model api_key : String) : String :=
  "https://generativelanguage.googleapis.com/v1beta/models/" ++ model
    ++ ":generateContent?key=" ++ api_key

/-- Request headers (app.py lines 88 and 110). -/
def request_headers : List (String × String) :=
  [("Content-Type", "application/json")]

/-- The JSON payload built by `get_gemini_tts_single` (app.py lines 90-102). -/
def get_gemini_tts_single_payload (text voice : String) : Json :=
  .obj
    [("contents", .arr [.obj [("parts", .arr [.obj [("text", .str text)]])]]),
     ("generationConfig", .obj
       [("responseModalities", .arr [.str "AUDIO"]),
        ("speechConfig", .obj
          [("voiceConfig", .obj
            [("prebuiltVoiceConfig", .obj
              [("voiceName", .str voice)])])])])]

/-- A speaker entry of the `speakers` list that `main` passes to
`get_gemini_tts_multi`: the dict `{"name": ..., "voice": ...}`
(app.py lines 322-325). -/
structure Speaker where
  name : String
  voice : String

/-- One element of `speaker_configs` (app.py lines 113-121). -/
def speaker_config (s : Speaker) : Json :=
  .obj
    [("speaker", .str s.name),
     ("voiceConfig", .obj
       [("prebuiltVoiceConfig", .obj
         [("voiceName", .str s.voice)])])]

/-- The JSON payload built by `get_gemini_tts_multi` (app.py lines 112-133). -/
def get_gemini_tts_multi_payload (text : String) (speakers : List Speaker) : Json :=
  .obj
    [("contents", .arr [.obj [("parts", .arr [.obj [("text", .str text)]])]]),
     ("generationConfig", .obj
       [("responseModalities", .arr [.str "AUDIO"]),
        ("speechConfig", .obj
          [("multiSpeakerVoiceConfig", .obj
            [("speakerVoiceConfigs", .arr (speakers.map speaker_config))])])])]

/-- Claim C1: for every text and voice name, the payload constructed by
`get_gemini_tts_single` carries the voice name at
`generationConfig.speechConfig.voiceConfig.prebuiltVoiceConfig.voiceName`
and the text at `contents[0].parts[0].text`. -/
theorem single_payload_voice_and_text (text voice : String) :
    (get_gemini_tts_single_payload text voice).getPath
        [.key "generationConfig", .key "speechConfig", .key "voiceConfig",
         .key "prebuiltVoiceConfig", .key "voiceName"] = some (.str voice) ∧
    (get_gemini_tts_single_payload text voice).getPath
        [.key "contents", .idx 0, .key "parts", .idx 0, .key "text"]
      = some (.str text) := by
  constructor <;> rfl

/-- Claim C2: for every input list of two (name, voice) speaker pairs, the
payload constructed by `get_gemini_tts_multi` carries, under
`generationConfig.speechConfig.multiSpeakerVoiceConfig.speakerVoiceConfigs`,
exactly the two speaker configs in input order, and each config carries its
name under `speaker` and its voice under
`voiceConfig.prebuiltVoiceConfig.voiceName`. -/
theorem multi_payload_two_speakers (text n1 v1 n2 v2 : String) :
    (get_gemini_tts_multi_payload text [⟨n1, v1⟩, ⟨n2, v2⟩]).getPath
        [.key "generationConfig", .key "speechConfig",
         .key "multiSpeakerVoiceConfig", .key "speakerVoiceConfigs"]
      = some (.arr [speaker_config ⟨n1, v1⟩, speaker_config ⟨n2, v2⟩]) ∧
    (speaker_config ⟨n1, v1⟩).getPath [.key "speaker"] = some (.str n1) ∧
    (speaker_config ⟨n1, v1⟩).getPath
        [.key "voiceConfig", .key "prebuiltVoiceConfig", .key "voiceName"]
      = some (.str v1) ∧
    (speaker_config ⟨n2, v2⟩).getPath [.key "speaker"] = some (.str n2) ∧
    (speaker_config ⟨n2, v2⟩).getPath
        [.key "voiceConfig", .key "prebuiltVoiceConfig", .key "voiceName"]
      = some (.str v2) := by
  refine ⟨?_, ?_, ?_, ?_, ?_⟩ <;> rfl

/-!
### Python operations on JSON-derived values

`response.json()` yields dicts, lists, strings, numbers, booleans and `None`.
The parser in `make_api_request` applies `in`, `[...]`, `len` and `for` to
them; each is modelled with its Python semantics, raising (`Except.error`)
exactly where Python raises.
-/

/-- Does character list `needle` occur at the start of `hay`? -/
def listStartsAt : List Char → List Char → Bool
  | [], _ => true
  | _ :: _, [] => false
  | c :: cs, h :: hs => c == h && listStartsAt cs hs

/-- Does `needle` occur as a contiguous run anywhere in `hay`?
(Python substring containment `needle in hay`.) -/
def listHasSub (needle : List Char) : List Char → Bool
  | [] => needle.isEmpty
  | h :: hs => listStartsAt needle (h :: hs) || listHasSub needle hs

/-- Python `k in j` for a string `k`: key membership for dicts, element
membership for lists (a JSON element equals the string `k` only if it is
that string), substring containment for strings; `TypeError` otherwise. -/
def pyContains (j : Json) (k : String) : Except String Bool :=
  match j with
  | .obj fields => .ok (lookupField fields k).isSome
  | .arr elems => .ok (elems.any (fun e => match e with
      | .str s => s == k
      | _ => false))
  | .str s => .ok (listHasSub k.data s.data)
  | _ => .error "TypeError: argument of type is not iterable"

/-- Python `j[k]` for a string key `k`: dict lookup (`KeyError` when the key
is absent), `TypeError` on lists and strings (indices must be integers) and
on non-subscriptable values. -/
def pyGetItemStr (j : Json) (k : String) : Except String Json :=
  match j with
  | .obj fields =>
    match lookupField fields k with
    | some v => .ok v
    | none => .error ("KeyError: " ++ k)
  | .arr _ => .error "TypeError: list indices must be integers or slices, not str"
  | .str _ => .error "TypeError: string indices must be integers"
  | _ => .error "TypeError: object is not subscriptable"

/-- Python `j[0]`: first element of a list (`IndexError` when empty), first
character of a string, `KeyError` on dicts (a JSON dict has only string
keys, so the integer key 0 is never present), `TypeError` otherwise. -/
def pyGetItem0 (j : Json) : Except String Json :=
  match j with
  | .arr elems =>
    match elems with
    | v :: _ => .ok v
    | [] => .error "IndexError: list index out of range"
  | .str s =>
    match s.data with
    | c :: _ => .ok (.str (String.mk [c]))
    | [] => .error "IndexError: string index out of range"
  | .obj _ => .error "KeyError: 0"
  | _ => .error "TypeError: object is not subscriptable"

/-- Python `len(j)`: defined for strings, lists and dicts; `TypeError`
otherwise. -/
def pyLen (j : Json) : Except String Nat :=
  match j with
  | .str s => .ok s.length
  | .arr elems => .ok elems.length
  | .obj fields => .ok fields.length
  | _ => .error "TypeError: object has no len"

/-- Python `for x in j`: the elements of a list, the keys of a dict, the
characters of a string (as one-character strings); `TypeError` otherwise. -/
def pyIter (j : Json) : Except String (List Json) :=
  match j with
  | .arr elems => .ok elems
  | .obj fields => .ok (fields.map (fun f => .str f.1))
  | .str s => .ok (s.data.map (fun c => .str (String.mk [c])))
  | _ => .error "TypeError: object is not iterable"

/-!
### Base64 (`base64.b64decode` and the standard encoding)

Bytes are modelled as natural numbers below 256.  `b64encodeBytes` is the
standard base64 encoding (what a well-behaved server puts in
`inlineData.data`); `b64decodeChars` models `base64.b64decode`, which raises
`binascii.Error` on malformed input.
-/

/-- The base64 alphabet: sextet values 0-63 to characters. -/
def encB64Char (n : Nat) : Char :=
  if n < 26 then Char.ofNat (65 + n)
  else if n < 52 then Char.ofNat (97 + (n - 26))
  else if n < 62 then Char.ofNat (48 + (n - 52))
  else if n = 62 then '+'
  else '/'

/-- Inverse of the base64 alphabet: characters to sextet values. -/
def decB64Char (c : Char) : Option Nat :=
  if 'A' ≤ c ∧ c ≤ 'Z' then some (c.toNat - 65)
  else if 'a' ≤ c ∧ c ≤ 'z' then some (c.toNat - 97 + 26)
  else if '0' ≤ c ∧ c ≤ '9' then some (c.toNat - 48 + 52)
  else if c = '+' then some 62
  else if c = '/' then some 63
  else none

/-- Standard base64 encoding of a byte list, three bytes to four characters,
padded with `=`. -/
def b64encodeBytes : List Nat → List Char
  | [] => []
  | [a] => [encB64Char (a / 4), encB64Char (a % 4 * 16), '=', '=']
  | [a, b] => [encB64Char (a / 4), encB64Char (a % 4 * 16 + b / 16),
               encB64Char (b % 16 * 4), '=']
  | a :: b :: c :: rest =>
      encB64Char (a / 4) :: encB64Char (a % 4 * 16 + b / 16)
        :: encB64Char (b % 16 * 4 + c / 64) :: encB64Char (c % 64)
        :: b64encodeBytes rest

/-- Base64 decoding of a character list, four characters to three bytes,
honouring `=` padding; raises on input that is not a padded quad stream
(Python `binascii.Error`). -/
def b64decodeChars : List Char → Except String (List Nat)
  | [] => .ok []
  | c1 :: c2 :: c3 :: c4 :: rest =>
    match decB64Char c1, decB64Char c2 with
    | some a, some b =>
      if c3 = '=' then
        if c4 = '=' ∧ rest = [] then .ok [a * 4 + b / 16]
        else .error "binascii.Error: invalid base64-encoded string"
      else
        match decB64Char c3 with
        | some c =>
          if c4 = '=' then
            if rest = [] then .ok [a * 4 + b / 16, b % 16 * 16 + c / 4]
            else .error "binascii.Error: invalid base64-encoded string"
          else
            match decB64Char c4 with
            | some d => (b64decodeChars rest).map
                (fun tail => (a * 4 + b / 16) :: (b % 16 * 16 + c / 4)
                  :: (c % 4 * 64 + d) :: tail)
            | none => .error "binascii.Error: invalid base64-encoded string"
        | none => .error "binascii.Error: invalid base64-encoded string"
    | _, _ => .error "binascii.Error: invalid base64-encoded string"
  | _ => .error "binascii.Error: invalid padding"

/-- Standard base64 encoding, as a string. -/
def b64encode (bytes : List Nat) : String :=
  String.mk (b64encodeBytes bytes)

/-- `base64.b64decode` on a string argument. -/
def b64decode (s : String) : Except String (List Nat) :=
  b64decodeChars s.data

/-- Each base64 alphabet character decodes back to its sextet value, and is
never the padding character. -/
theorem decB64Char_encB64Char (s : Nat) (hs : s < 64) :
    decB64Char (encB64Char s) = some s ∧ encB64Char s ≠ '=' := by
  have h : ∀ t : Fin 64, decB64Char (encB64Char t.val) = some t.val ∧
      encB64Char t.val ≠ '=' := by decide
  exact h ⟨s, hs⟩

/-- Decoding a standard base64 encoding recovers the original bytes. -/
theorem b64decodeChars_b64encodeBytes (l : List Nat) (h : ∀ x ∈ l, x < 256) :
    b64decodeChars (b64encodeBytes l) = .ok l := by
  induction l using b64encodeBytes.induct with
  | case1 => rfl
  | case2 a =>
    have ha : a < 256 := h a (by simp)
    have h1 := decB64Char_encB64Char (a / 4) (by omega)
    have h2 := decB64Char_encB64Char (a % 4 * 16) (by omega)
    simp only [b64encodeBytes, b64decodeChars, h1.1, h2.1]
    simp
    omega
  | case3 a b =>
    have ha : a < 256 := h a (by simp)
    have hb : b < 256 := h b (by simp)
    have h1 := decB64Char_encB64Char (a / 4) (by omega)
    have h2 := decB64Char_encB64Char (a % 4 * 16 + b / 16) (by omega)
    have h3 := decB64Char_encB64Char (b % 16 * 4) (by omega)
    simp only [b64encodeBytes, b64decodeChars, h1.1, h2.1, h3.1]
    rw [if_neg h3.2]
    simp
    omega
  | case4 a b c rest ih =>
    have ha : a < 256 := h a (by simp)
    have hb : b < 256 := h b (by simp)
    have hc : c < 256 := h c (by simp)
    have hrest : ∀ x ∈ rest, x < 256 := fun x hx => h x (by simp [hx])
    have h1 := decB64Char_encB64Char (a / 4) (by omega)
    have h2 := decB64Char_encB64Char (a % 4 * 16 + b / 16) (by omega)
    have h3 := decB64Char_encB64Char (b % 16 * 4 + c / 64) (by omega)
    have h4 := decB64Char_encB64Char (c % 64) (by omega)
    simp only [b64encodeBytes, b64decodeChars, h1.1, h2.1, h3.1, h4.1]
    rw [if_neg h3.2, if_neg h4.2]
    rw [ih hrest]
    simp [Except.map]
    omega

/-- Round trip through the string-level wrappers. -/
theorem b64decode_b64encode (l : List Nat) (h : ∀ x ∈ l, x < 256) :
    b64decode (b64encode l) = .ok l :=
  b64decodeChars_b64encodeBytes l h

/-!
### `make_api_request` (app.py lines 137-180)

The function posts the payload and switches on the status code.  In the
model, the outcome of `requests.post` is an input (`PostResult`): either a
received `HttpResponse` (whose body is `none` when `response.json()` would
raise), a timeout, or another request exception.  The function returns
`Optional[bytes]` and, on failure branches, shows one `st.error` message;
both are collected in `ApiResult`.  All exceptions raised while processing
a received response are caught by the `except Exception` clause, which
shows `f"Unexpected error: {str(e)}"` — no exception escapes.
-/

/-- An HTTP response, as seen through the `requests` response object:
the status code, the parsed JSON body (`none` when the body is not valid
JSON, in which case `response.json()` raises), and the raw body text. -/
structure HttpResponse where
  status_code : Nat
  body : Option Json
  text : String

/-- Outcome of `requests.post`: a response, a timeout
(`requests.exceptions.Timeout`), or another request exception
(`requests.exceptions.RequestException`). -/
inductive PostResult where
  | success (resp : HttpResponse)
  | timeout
  | connError (msg : String)

/-- What `make_api_request` produces: the returned `Optional[bytes]` value
and the `st.error` message shown on the way, if any. -/
structure ApiResult where
  audio : Option (List Nat)
  error : Option String
deriving DecidableEq

/-- The loop `for part in ...` (app.py lines 147-150): return the decoded
`inlineData.data` of the first part that has an `inlineData` field.
Exceptions propagate (missing `data` key, non-string data, bad base64). -/
def findInlineData : List Json → Except String (Option (List Nat))
  | [] => .ok none
  | part :: rest => do
    let has ← pyContains part "inlineData"
    if has then
      let inline ← pyGetItemStr part "inlineData"
      let dataVal ← pyGetItemStr inline "data"
      match dataVal with
      | .str s => do
        let bytes ← b64decode s
        pure (some bytes)
      | _ => .error "TypeError: argument should be a bytes-like object or ASCII string"
    else
      findInlineData rest

/-- The status-200 branch (app.py lines 143-151): walk the nested response
structure; `Except.error` marks a raised exception. -/
def parseSuccess (result : Json) : Except String (Option (List Nat)) := do
  let hasCands ← pyContains result "candidates"
  if hasCands then
    let cands ← pyGetItemStr result "candidates"
    let n ← pyLen cands
    if n > 0 then
      let candidate ← pyGetItem0 cands
      let hasContent ← pyContains candidate "content"
      if hasContent then
        let content ← pyGetItemStr candidate "content"
        let hasParts ← pyContains content "parts"
        if hasParts then
          let partsVal ← pyGetItemStr content "parts"
          let parts ← pyIter partsVal
          findInlineData parts
        else pure none
      else pure none
    else pure none
  else pure none

/-- Python `str()` of a JSON-derived value, used only to interpolate values
into error-message text (the rendering of nested containers is abbreviated
here; it affects only the text of status-400 messages, which no claim
inspects). -/
def jsonStr : Json → String
  | .null => "None"
  | .bool true => "True"
  | .bool false => "False"
  | .num n => toString n
  | .str s => s
  | .arr _ => "<list>"
  | .obj _ => "<dict>"

/-- The status-400 branch (app.py lines 152-158): re-parse the body and
show the server-supplied message when present.
`error_data["error"].get("message", "Bad request")` requires
`error_data["error"]` to be a dict; otherwise `.get` raises
`AttributeError`, which the outer handler catches. -/
def handle400 (body : Option Json) : ApiResult :=
  match body with
  | none => ⟨none, some "Network error: response body is not valid JSON"⟩
  | some errorData =>
    match pyContains errorData "error" with
    | .error e => ⟨none, some ("Unexpected error: " ++ e)⟩
    | .ok true =>
      match pyGetItemStr errorData "error" with
      | .error e => ⟨none, some ("Unexpected error: " ++ e)⟩
      | .ok (.obj efields) =>
        ⟨none, some ("API Error: "
          ++ (match lookupField efields "message" with
              | some v => jsonStr v
              | none => "Bad request"))⟩
      | .ok _ =>
        ⟨none, some "Unexpected error: AttributeError: object has no attribute get"⟩
    | .ok false => ⟨none, some "Bad request - please check your input"⟩

/-- `make_api_request` (app.py lines 137-180).  Returns the audio bytes and
the error message surfaced via `st.error`, if any.  A body that is not
valid JSON makes `response.json()` raise
`requests.exceptions.JSONDecodeError`, which is a `RequestException` and is
reported as a network error. -/
def make_api_request (post : PostResult) : ApiResult :=
  match post with
  | .timeout => ⟨none, some "Request timed out. Please try again."⟩
  | .connError msg => ⟨none, some ("Network error: " ++ msg)⟩
  | .success resp =>
    if resp.status_code = 200 then
      match resp.body with
      | none => ⟨none, some "Network error: response body is not valid JSON"⟩
      | some result =>
        match parseSuccess result with
        | .ok audio => ⟨audio, none⟩
        | .error e => ⟨none, some ("Unexpected error: " ++ e)⟩
    else if resp.status_code = 400 then
      handle400 resp.body
    else if resp.status_code = 401 then
      ⟨none, some "Invalid API key. Please check your Gemini API key."⟩
    else if resp.status_code = 403 then
      ⟨none, some "API access forbidden. Please check your API key permissions."⟩
    else if resp.status_code = 429 then
      ⟨none, some "Rate limit exceeded. Please wait a moment and try again."⟩
    else
      ⟨none, some ("API Error: " ++ toString resp.status_code ++ " - " ++ resp.text)⟩

/-- `get_gemini_tts_single` (app.py lines 84-104): build the URL and the
single-speaker payload, post them, and hand the outcome to
`make_api_request`.  The network is an oracle mapping (url, payload) to a
`PostResult`. -/
def get_gemini_tts_single (net : String → Json → PostResult)
    (text api_key model voice : String) : ApiResult :=
  make_api_request
    (net (request_url model api_key) (get_gemini_tts_single_payload text voice))

/-- `get_gemini_tts_multi` (app.py lines 106-135). -/
def get_gemini_tts_multi (net : String → Json → PostResult)
    (text api_key model : String) (speakers : List Speaker) : ApiResult :=
  make_api_request
    (net (request_url model api_key) (get_gemini_tts_multi_payload text speakers))

/-!
### `validate_api_key` (app.py lines 182-184) and the generate-button
validation chain in `main` (app.py lines 306-326)
-/

/-- Python `s.startswith(p)`: does `p` occur at the start of `s`? -/
def pyStartsWith (s p : String) : Bool :=
  listStartsAt p.data s.data

/-- `listStartsAt needle hay` holds exactly when the first
`needle.length` characters of `hay` are `needle`. -/
theorem listStartsAt_iff_take (needle hay : List Char) :
    listStartsAt needle hay = true ↔ hay.take needle.length = needle := by
  induction needle generalizing hay with
  | nil => simp [listStartsAt]
  | cons c cs ih =>
    cases hay with
    | nil => simp [listStartsAt]
    | cons h hs =>
      simp only [listStartsAt, List.length_cons, List.take_succ_cons,
        Bool.and_eq_true, beq_iff_eq, List.cons.injEq, ih]
      constructor
      · rintro ⟨h1, h2⟩
        exact ⟨h1.symm, h2⟩
      · rintro ⟨h1, h2⟩
        exact ⟨h1.symm, h2⟩

/-- `validate_api_key` (app.py lines 182-184):
`api_key and len(api_key) > 20 and api_key.startswith("AIza")`.
The leading `api_key` is Python truthiness: an empty string is falsy, so the
whole expression is falsy exactly when the string is empty or one of the
later tests fails. -/
def validate_api_key (api_key : String) : Bool :=
  !(api_key == "") && decide (20 < api_key.length) && pyStartsWith api_key "AIza"

/-- Claim C7: `validate_api_key` accepts a string exactly when it is longer
than 20 characters and its first four characters are `AIza` (so it rejects
any string shorter than 21 characters and any string not carrying the
prefix, and accepts every other string — the leading truthiness test adds
nothing, since a string longer than 20 characters is nonempty). -/
theorem validate_api_key_spec (s : String) :
    validate_api_key s = true ↔ 20 < s.length ∧ s.data.take 4 = "AIza".data := by
  simp only [validate_api_key, pyStartsWith, Bool.and_eq_true, Bool.not_eq_true',
    beq_eq_false_iff_ne, decide_eq_true_eq, listStartsAt_iff_take]
  constructor
  · rintro ⟨⟨_, hlen⟩, hpre⟩
    exact ⟨hlen, hpre⟩
  · rintro ⟨hlen, hpre⟩
    refine ⟨⟨?_, hlen⟩, hpre⟩
    intro e
    subst e
    simp at hlen

/-- Python `str.strip()`: remove leading and trailing whitespace. -/
def pyStrip (s : String) : String :=
  String.mk (((s.data.dropWhile Char.isWhitespace).reverse.dropWhile
    Char.isWhitespace).reverse)

/-- The two generation modes offered by the radio widget
(app.py lines 218-222). -/
inductive Mode where
  | single
  | multi
deriving DecidableEq

/-- What the `if generate_button:` handler does once the button is pressed
(app.py lines 306-326): either it shows one local validation error, or it
invokes one of the two request helpers.  Speakers carry the two
(name, voice) pairs built on lines 322-325. -/
inductive GenAction where
  | showError (msg : String)
  | callSingle (text api_key model voice : String)
  | callMulti (text api_key model : String) (speakers : List Speaker)

/-- Did the handler reach an HTTP request helper? -/
def GenAction.isApiCall : GenAction → Bool
  | .showError _ => false
  | .callSingle _ _ _ _ => true
  | .callMulti _ _ _ _ => true

/-- The validation-and-dispatch chain run when the generate button is
pressed (app.py lines 306-326), in source order: missing key, key format,
empty stripped text, over-length text, then the API call with the stripped
text. -/
def handle_generate (mode : Mode) (api_key text_input selected_model
    selected_voice s1name s1voice s2name s2voice : String) : GenAction :=
  if api_key = "" then
    .showError "Please enter your Gemini API key"
  else if !validate_api_key api_key then
    .showError "Invalid API key format. Please check your key."
  else if pyStrip text_input = "" then
    .showError "Please enter some text to convert to speech"
  else if 8000 < text_input.length then
    .showError "Text is too long. Please limit to ~8000 characters."
  else
    match mode with
    | .single => .callSingle (pyStrip text_input) api_key selected_model selected_voice
    | .multi => .callMulti (pyStrip text_input) api_key selected_model
        [⟨s1name, s1voice⟩, ⟨s2name, s2voice⟩]

/-- An over-length text: 8001 copies of `a`. -/
def longText : String := String.mk (List.replicate 8001 'a')

theorem longText_length : longText.length = 8001 := by
  have h : longText.length = (List.replicate 8001 'a').length := rfl
  rw [h, List.length_replicate]

theorem longText_ne_empty : longText ≠ "" := by
  intro e
  have h := congrArg String.length e
  rw [longText_length] at h
  exact absurd h (by decide)

theorem dropWhile_replicate_of_not {p : Char → Bool} (n : Nat) (a : Char)
    (h : ¬ p a = true) : List.dropWhile p (List.replicate n a) = List.replicate n a := by
  cases n with
  | zero => rfl
  | succ m => simp [List.replicate_succ, List.dropWhile_cons, h]

/-- Stripping the all-`a` over-length text changes nothing. -/
theorem pyStrip_longText : pyStrip longText = longText := by
  have ha : ¬ Char.isWhitespace 'a' = true := by decide
  show String.mk (((List.replicate 8001 'a').dropWhile Char.isWhitespace).reverse.dropWhile
    Char.isWhitespace).reverse = longText
  rw [dropWhile_replicate_of_not _ _ ha, List.reverse_replicate,
    dropWhile_replicate_of_not _ _ ha, List.reverse_replicate]
  rfl

/-- Claim C8, counterexample: a submission whose text is longer than 8000
characters but whose API key fails the format check is rejected with the
invalid-key message, not the over-length message (the key check runs
first), so "generation fails with a local over-length error message" does
not hold of every over-length submission. -/
theorem overlength_bad_key_counterexample :
    8000 < longText.length ∧
    handle_generate .single "bad" longText "gemini-2.5-flash-preview-tts" "Kore"
        "Speaker1" "Zephyr" "Speaker2" "Puck"
      = .showError "Invalid API key format. Please check your key." ∧
    "Invalid API key format. Please check your key."
      ≠ "Text is too long. Please limit to ~8000 characters." := by
  refine ⟨by simp [longText_length], rfl, by decide⟩

/-- Claim C8, amended: for every submitted text longer than 8000
characters, no HTTP request helper is invoked; and when the earlier local
checks pass (the key has a valid format — hence is nonempty — and the
stripped text is nonempty), the surfaced message is the over-length
error. -/
theorem overlength_no_request (mode : Mode)
    (api_key text_input model voice s1n s1v s2n s2v : String)
    (h : 8000 < text_input.length) :
    (handle_generate mode api_key text_input model voice s1n s1v s2n s2v).isApiCall
        = false ∧
    (validate_api_key api_key = true → pyStrip text_input ≠ "" →
      handle_generate mode api_key text_input model voice s1n s1v s2n s2v
        = .showError "Text is too long. Please limit to ~8000 characters.") := by
  constructor
  · unfold handle_generate
    split_ifs <;> rfl
  · intro hv ht
    have hne : api_key ≠ "" := by
      intro e
      rw [e] at hv
      simp [validate_api_key] at hv
    simp [handle_generate, hne, hv, ht, h]

/-- Claim C8, witness: a concrete over-length submission with a well-formed
key is rejected with the over-length message. -/
theorem overlength_no_request_witness :
    validate_api_key "AIzaSyABCDEFGHIJKLMNO" = true ∧
    handle_generate .single "AIzaSyABCDEFGHIJKLMNO" longText "gemini-2.5-pro-preview-tts"
        "Kore" "Speaker1" "Zephyr" "Speaker2" "Puck"
      = .showError "Text is too long. Please limit to ~8000 characters." :=
  ⟨by decide,
    (overlength_no_request .single "AIzaSyABCDEFGHIJKLMNO" longText
        "gemini-2.5-pro-preview-tts" "Kore" "Speaker1" "Zephyr" "Speaker2" "Puck"
        (by simp [longText_length])).2
      (by decide)
      (by rw [pyStrip_longText]; exact longText_ne_empty)⟩

/-!
### Claims about the response parser
-/

/-- Claim C3: a 200 response whose JSON object body has no `candidates`
field, or an empty `candidates` list, makes `make_api_request` return
`None` without raising: the result carries no audio and no error message
(in particular the `except Exception` branch is never reached, since the
membership and length guards short-circuit the walk). -/
theorem no_candidates_yields_none (fields : List (String × Json)) (t : String)
    (h : lookupField fields "candidates" = none ∨
         lookupField fields "candidates" = some (.arr [])) :
    make_api_request (.success ⟨200, some (.obj fields), t⟩) = ⟨none, none⟩ := by
  rcases h with h | h <;>
    simp [make_api_request, parseSuccess, pyContains, pyGetItemStr, pyGetItem0,
      pyLen, h, Bind.bind, Except.bind, Pure.pure, Except.pure]

/-- Claim C3, witness: a concrete 200 body with only a `promptFeedback`
field yields no audio and no error. -/
theorem no_candidates_yields_none_witness :
    make_api_request (.success ⟨200, some (.obj [("promptFeedback", .obj [])]), ""⟩)
      = ⟨none, none⟩ :=
  no_candidates_yields_none [("promptFeedback", .obj [])] "" (.inl rfl)

/-- Claim C6: a 429 response surfaces the rate-limit message and returns no
audio; a 401 response surfaces the invalid-API-key message and returns no
audio. -/
theorem status_429_and_401_messages (resp : HttpResponse) :
    (resp.status_code = 429 →
      make_api_request (.success resp)
        = ⟨none, some "Rate limit exceeded. Please wait a moment and try again."⟩) ∧
    (resp.status_code = 401 →
      make_api_request (.success resp)
        = ⟨none, some "Invalid API key. Please check your Gemini API key."⟩) := by
  constructor <;> intro h <;> simp [make_api_request, h]

/-- Claim C6, witness: concrete 429 and 401 responses produce exactly those
messages. -/
theorem status_429_and_401_messages_witness :
    make_api_request (.success ⟨429, none, ""⟩)
      = ⟨none, some "Rate limit exceeded. Please wait a moment and try again."⟩ ∧
    make_api_request (.success ⟨401, none, ""⟩)
      = ⟨none, some "Invalid API key. Please check your Gemini API key."⟩ :=
  ⟨(status_429_and_401_messages ⟨429, none, ""⟩).1 rfl,
   (status_429_and_401_messages ⟨401, none, ""⟩).2 rfl⟩

/-- Every branch of the 400 handler returns no audio. -/
theorem handle400_audio (body : Option Json) : (handle400 body).audio = none := by
  unfold handle400
  split
  · rfl
  · split
    · rfl
    · split <;> rfl
    · rfl

/-- Claim C9: whenever the response status is not 200, `make_api_request`
returns no audio (equivalently, audio bytes are only ever produced from a
200 response). -/
theorem non_200_returns_no_audio (resp : HttpResponse)
    (h : resp.status_code ≠ 200) :
    (make_api_request (.success resp)).audio = none := by
  simp only [make_api_request, if_neg h]
  split_ifs
  · exact handle400_audio resp.body
  all_goals rfl

/-- Claim C9, witness: a concrete 500 response yields no audio. -/
theorem non_200_returns_no_audio_witness :
    (make_api_request (.success ⟨500, none, "server error"⟩)).audio = none :=
  non_200_returns_no_audio ⟨500, none, "server error"⟩ (by decide)

/-- A 200 response carrying the given JSON body. -/
def resp200 (body : Json) (t : String) : HttpResponse := ⟨200, some body, t⟩

/-- A response body whose `candidates` list is the given one. -/
def respBody (cands : List Json) : Json := .obj [("candidates", .arr cands)]

/-- A candidate whose `content.parts` list is the given one. -/
def partsCand (parts : List Json) : Json :=
  .obj [("content", .obj [("parts", .arr parts)])]

/-- A part carrying `inlineData.data` with the given string. -/
def inlinePart (s : String) : Json :=
  .obj [("inlineData", .obj [("data", .str s)])]

/-- Parts without an `inlineData` field are skipped by the loop. -/
theorem findInlineData_append (pre rest : List Json)
    (h : ∀ p ∈ pre, pyContains p "inlineData" = .ok false) :
    findInlineData (pre ++ rest) = findInlineData rest := by
  induction pre with
  | nil => rfl
  | cons p ps ih =>
    have hp := h p (by simp)
    have hps : ∀ q ∈ ps, pyContains q "inlineData" = .ok false :=
      fun q hq => h q (by simp [hq])
    simp [findInlineData, hp, ih hps, Bind.bind, Except.bind]

/-- The loop returns the decoded data of the part at the head when that
part carries `inlineData.data`, whatever follows it. -/
theorem findInlineData_inline_head (s : String) (post : List Json) :
    findInlineData (inlinePart s :: post) = (b64decode s).map some := by
  cases hb : b64decode s <;>
    simp [findInlineData, inlinePart, pyContains, pyGetItemStr, lookupField, hb,
      Bind.bind, Except.bind, Pure.pure, Except.pure, Except.map]

/-- Claim C5: if a 200 response carries the standard base64 encoding of a
byte string at `candidates[0].content.parts[0].inlineData.data`, then
`make_api_request` returns exactly those bytes (and shows no error). -/
theorem b64_roundtrip_through_parse (bytes : List Nat) (t : String)
    (h : ∀ x ∈ bytes, x < 256) :
    make_api_request (.success (resp200
        (respBody [partsCand [inlinePart (b64encode bytes)]]) t))
      = ⟨some bytes, none⟩ := by
  have hd := b64decode_b64encode bytes h
  simp [make_api_request, resp200, respBody, partsCand, parseSuccess, pyContains,
    pyGetItemStr, pyGetItem0, pyLen, pyIter, lookupField, findInlineData_inline_head,
    hd, Bind.bind, Except.bind, Pure.pure, Except.pure, Except.map]

/-- Claim C5, witness: the encoding of the three bytes 7, 255, 0 decodes
back to them through the parser. -/
theorem b64_roundtrip_through_parse_witness :
    make_api_request (.success (resp200
        (respBody [partsCand [inlinePart (b64encode [7, 255, 0])]]) ""))
      = ⟨some [7, 255, 0], none⟩ :=
  b64_roundtrip_through_parse [7, 255, 0] "" (by decide)

/-- Claim C10: in a 200 response with several candidates and several parts,
the returned audio is the decoded `inlineData.data` of the first part that
carries an `inlineData` field inside the first candidate; parts before it
lack `inlineData`, and parts after it and all later candidates are
ignored. -/
theorem first_inline_part_wins (bytes : List Nat)
    (pre post moreCands : List Json) (t : String)
    (hpre : ∀ p ∈ pre, pyContains p "inlineData" = .ok false)
    (hb : ∀ x ∈ bytes, x < 256) :
    make_api_request (.success (resp200
        (respBody (partsCand (pre ++ inlinePart (b64encode bytes) :: post)
          :: moreCands)) t))
      = ⟨some bytes, none⟩ := by
  have hd := b64decode_b64encode bytes hb
  have hskip := findInlineData_append pre (inlinePart (b64encode bytes) :: post) hpre
  simp [make_api_request, resp200, respBody, partsCand, parseSuccess, pyContains,
    pyGetItemStr, pyGetItem0, pyLen, pyIter, lookupField, hskip,
    findInlineData_inline_head, hd, Bind.bind, Except.bind, Pure.pure, Except.pure,
    Except.map]

/-- Claim C10, witness: with one skipped part before the payload, one
decodable part after it and one extra candidate, the first `inlineData`
part of the first candidate is the one returned. -/
theorem first_inline_part_wins_witness :
    make_api_request (.success (resp200
        (respBody (partsCand [.obj [("text", .str "hi")],
            inlinePart (b64encode [1, 2, 3]), inlinePart (b64encode [9])]
          :: [partsCand [inlinePart (b64encode [4])]])) ""))
      = ⟨some [1, 2, 3], none⟩ := by
  have h := first_inline_part_wins [1, 2, 3] [.obj [("text", .str "hi")]]
    [inlinePart (b64encode [9])] [partsCand [inlinePart (b64encode [4])]] ""
    (by intro p hp; simp at hp; subst hp; rfl) (by decide)
  simpa using h

/-- When the first `inlineData` part lacks the `data` field, the lookup
raises `KeyError`, which propagates out of the loop. -/
theorem findInlineData_missing_data (inlineFields : List (String × Json))
    (post : List Json) (h : lookupField inlineFields "data" = none) :
    findInlineData (.obj [("inlineData", .obj inlineFields)] :: post)
      = .error "KeyError: data" := by
  simp [findInlineData, pyContains, pyGetItemStr, lookupField, h,
    Bind.bind, Except.bind]

/-- A part list with no `inlineData` part makes the loop fall through. -/
theorem findInlineData_none (parts : List Json)
    (h : ∀ p ∈ parts, pyContains p "inlineData" = .ok false) :
    findInlineData parts = .ok none := by
  have happ := findInlineData_append parts [] h
  simpa using happ

/-- Claim C4, counterexample: a 200 response whose first part carries an
`inlineData` object without a `data` field is NOT handled silently: the
`part["inlineData"]["data"]` lookup raises `KeyError`, the
`except Exception` handler shows an unexpected-error message, and only then
is `None` returned.  So not every structural mismatch yields `None`
silently. -/
theorem missing_data_field_not_silent :
    make_api_request (.success (resp200
        (respBody [partsCand [.obj [("inlineData", .obj [])]]]) ""))
      = ⟨none, some "Unexpected error: KeyError: data"⟩ ∧
    (make_api_request (.success (resp200
        (respBody [partsCand [.obj [("inlineData", .obj [])]]]) ""))).error
      ≠ none := by
  refine ⟨rfl, by decide⟩

/-- Claim C4, amended: a 200 response whose JSON object body deviates from
the expected shape at one of the membership-guarded levels — no
`candidates` key, an empty `candidates` list, a first candidate without
`content`, a `content` without `parts`, or a `parts` list with no part
carrying `inlineData` — makes `make_api_request` return `None` silently
(no error message); but when the first `inlineData` part lacks the `data`
field, the lookup raises internally and `make_api_request` still returns
`None` while surfacing the message `Unexpected error: KeyError: data`. -/
theorem guarded_mismatches_silent :
    (∀ (fields : List (String × Json)) (t : String),
      lookupField fields "candidates" = none →
      make_api_request (.success ⟨200, some (.obj fields), t⟩) = ⟨none, none⟩) ∧
    (∀ (fields : List (String × Json)) (t : String),
      lookupField fields "candidates" = some (.arr []) →
      make_api_request (.success ⟨200, some (.obj fields), t⟩) = ⟨none, none⟩) ∧
    (∀ (cfields : List (String × Json)) (rest : List Json) (t : String),
      lookupField cfields "content" = none →
      make_api_request (.success (resp200 (respBody (.obj cfields :: rest)) t))
        = ⟨none, none⟩) ∧
    (∀ (cfields ctfields : List (String × Json)) (rest : List Json) (t : String),
      lookupField cfields "content" = some (.obj ctfields) →
      lookupField ctfields "parts" = none →
      make_api_request (.success (resp200 (respBody (.obj cfields :: rest)) t))
        = ⟨none, none⟩) ∧
    (∀ (cfields ctfields : List (String × Json)) (parts rest : List Json) (t : String),
      lookupField cfields "content" = some (.obj ctfields) →
      lookupField ctfields "parts" = some (.arr parts) →
      (∀ p ∈ parts, pyContains p "inlineData" = .ok false) →
      make_api_request (.success (resp200 (respBody (.obj cfields :: rest)) t))
        = ⟨none, none⟩) ∧
    (∀ (cfields ctfields inlineFields : List (String × Json))
        (pre post rest : List Json) (t : String),
      lookupField cfields "content" = some (.obj ctfields) →
      lookupField ctfields "parts"
        = some (.arr (pre ++ .obj [("inlineData", .obj inlineFields)] :: post)) →
      (∀ p ∈ pre, pyContains p "inlineData" = .ok false) →
      lookupField inlineFields "data" = none →
      make_api_request (.success (resp200 (respBody (.obj cfields :: rest)) t))
        = ⟨none, some "Unexpected error: KeyError: data"⟩) := by
  refine ⟨?_, ?_, ?_, ?_, ?_, ?_⟩
  · intro fields t h
    simp [make_api_request, parseSuccess, pyContains, pyGetItemStr, pyGetItem0,
      pyLen, h, Bind.bind, Except.bind, Pure.pure, Except.pure]
  · intro fields t h
    simp [make_api_request, parseSuccess, pyContains, pyGetItemStr, pyGetItem0,
      pyLen, h, Bind.bind, Except.bind, Pure.pure, Except.pure]
  · intro cfields rest t h
    simp [make_api_request, resp200, respBody, parseSuccess, pyContains,
      pyGetItemStr, pyGetItem0, pyLen, lookupField, h, Bind.bind, Except.bind,
      Pure.pure, Except.pure]
  · intro cfields ctfields rest t hc hp
    simp [make_api_request, resp200, respBody, parseSuccess, pyContains,
      pyGetItemStr, pyGetItem0, pyLen, lookupField, hc, hp, Bind.bind, Except.bind,
      Pure.pure, Except.pure]
  · intro cfields ctfields parts rest t hc hp hparts
    have hfi := findInlineData_none parts hparts
    simp [make_api_request, resp200, respBody, parseSuccess, pyContains,
      pyGetItemStr, pyGetItem0, pyLen, pyIter, lookupField, hc, hp, hfi,
      Bind.bind, Except.bind, Pure.pure, Except.pure]
  · intro cfields ctfields inlineFields pre post rest t hc hp hpre hd
    have hskip := findInlineData_append pre
      (.obj [("inlineData", .obj inlineFields)] :: post) hpre
    have hmiss := findInlineData_missing_data inlineFields post hd
    simp [make_api_request, resp200, respBody, parseSuccess, pyContains,
      pyGetItemStr, pyGetItem0, pyLen, pyIter, lookupField, hc, hp, hskip, hmiss,
      Bind.bind, Except.bind, Pure.pure, Except.pure]

/-- Claim C4, witness: concrete instances of all six amended cases. -/
theorem guarded_mismatches_silent_witness :
    make_api_request (.success ⟨200, some (.obj []), ""⟩) = ⟨none, none⟩ ∧
    make_api_request (.success ⟨200, some (.obj [("candidates", .arr [])]), ""⟩)
      = ⟨none, none⟩ ∧
    make_api_request (.success (resp200 (respBody [.obj []]) "")) = ⟨none, none⟩ ∧
    make_api_request (.success (resp200
        (respBody [.obj [("content", .obj [])]]) "")) = ⟨none, none⟩ ∧
    make_api_request (.success (resp200
        (respBody [.obj [("content", .obj [("parts", .arr [])])]]) ""))
      = ⟨none, none⟩ ∧
    make_api_request (.success (resp200
        (respBody [.obj [("content", .obj [("parts",
          .arr [.obj [("inlineData", .obj [])]])])]]) ""))
      = ⟨none, some "Unexpected error: KeyError: data"⟩ := by
  refine ⟨guarded_mismatches_silent.1 [] "" rfl,
    guarded_mismatches_silent.2.1 [("candidates", .arr [])] "" rfl,
    guarded_mismatches_silent.2.2.1 [] [] "" rfl,
    guarded_mismatches_silent.2.2.2.1 [("content", .obj [])] [] [] "" rfl rfl,
    guarded_mismatches_silent.2.2.2.2.1 [("content", .obj [("parts", .arr [])])]
      [("parts", .arr [])] [] [] "" rfl rfl (by simp),
    ?_⟩
  have h := guarded_mismatches_silent.2.2.2.2.2
    [("content", .obj [("parts", .arr [.obj [("inlineData", .obj [])]])])]
    [("parts", .arr [.obj [("inlineData", .obj [])]])] [] [] [] [] ""
    rfl rfl (by simp) rfl
  simpa using h
